import Mathlib

/-!
Shallow embedding of `zipline/algorithm.py` (class `TradingAlgorithm`):
construction, transform registration (`add_transform`), simulation assembly
(`_create_simulator`), execution (`run`), result reduction
(`_create_daily_stats`), and the simple setters.

Python values are modelled by a small dynamic value universe; snapshots
(perf "ndicts") are string-keyed association lists; Python exceptions are
modelled with `Except`; the external simulation engine (`SimulatedTrading`
iteration) is an oracle parameter of `run`.
-/

namespace Zipline

/-- Dynamic primitive values appearing in the embedded program: Python
`None`, integers, strings, timestamps (instants on an abstract integer
timeline) and opaque references (callables, loggers, portfolio objects,
transform classes). -/
inductive PrimValue where
  | null
  | int (n : Int)
  | str (s : String)
  | time (t : Int)
  | fn (id : Nat)
deriving DecidableEq

/-- Flat string-keyed record of primitive values (the shape of a
`daily_perf` nested record). -/
abbrev PerfRecord := List (String × PrimValue)

/-- Dynamic value: a primitive or a nested record. -/
inductive Value where
  | prim (v : PrimValue)
  | record (fields : PerfRecord)
deriving DecidableEq

/-- Performance snapshot ("perf ndict"): a string-keyed record whose
values may be nested records (for the `daily_perf` key). -/
abbrev Perf := List (String × Value)

/-- Association-list lookup, modelling Python `d[key]`-style access and
`key in d` membership for dict-like records. -/
def alookup {α : Type} : List (String × α) → String → Option α
  | [], _ => none
  | (k, v) :: rest, key => if k = key then some v else alookup rest key

/-- Python-dict insertion `d[key] = v`: replaces the value at an existing
key in place, otherwise appends a new binding. -/
def dictInsert {α : Type} : List (String × α) → String → α → List (String × α)
  | [], key, v => [(key, v)]
  | (k, w) :: rest, key, v =>
    if k = key then (key, v) :: rest else (k, w) :: dictInsert rest key v

/-- Python exceptions that the embedded code paths can raise. -/
inductive PyError where
  | assertionError
  | indexError
  | keyError
  | typeError
  | attributeError
deriving DecidableEq

/-- Registered transform descriptor: the dict
`{'class': ..., 'args': ..., 'kwargs': ...}` stored by `add_transform`
(the class is an opaque reference). -/
structure TransformDescr where
  cls : Nat
  args : List Value
  kwargs : List (String × Value)
deriving DecidableEq

/-- TradingAlgorithm instance state: the attributes set in `__init__`
(`sids`, `done`, `order`, `frame_count`, `portfolio`,
`registered_transforms`) plus the `logger` attribute, which `__init__`
does not create (`none` models the attribute being absent; `set_logger`
creates it). -/
structure AlgoState where
  sids : List Nat
  done : Bool
  order : Value
  frame_count : Nat
  portfolio : Value
  registered_transforms : List (String × TransformDescr)
  logger : Option Value
deriving DecidableEq

/-- Kind of a pandas row index: a `DatetimeIndex` or anything else.
The `isinstance(source.index, pd.tseries.index.DatetimeIndex)` assert in
`run` tests exactly this kind. -/
inductive IndexKind where
  | datetime
  | object
deriving DecidableEq

/-- Pandas row index: its runtime kind plus its values (timestamps on the
abstract integer timeline when the kind is `datetime`). -/
structure DFIndex where
  kind : IndexKind
  vals : List Int
deriving DecidableEq

/-- Tabular input (pandas DataFrame): a row index and integer (sid)
column labels; cell contents are irrelevant to the orchestration layer. -/
structure DataFrame where
  index : DFIndex
  columns : List Nat
deriving DecidableEq

/-- Streaming source object as consumed by `_create_simulator`: exposes a
`.data` DataFrame (whose `.index` provides the first/last timestamps) and
the sid filter it was built with. -/
structure SourceObj where
  data : DataFrame
  sids : List Nat
deriving DecidableEq

/-- Modelled from the spec: the external `DataFrameSource` adapter
(zipline.gens.tradegens, not in src/) wraps a tabular input into a
streaming source restricted to the algorithm's tracked instruments,
keeping the row index as its temporal extent. -/
def DataFrameSource (df : DataFrame) (sids : List Nat) : SourceObj :=
  ⟨⟨df.index, df.columns.filter (fun c => sids.contains c)⟩, sids⟩

/-- Input accepted by `run`: a pandas DataFrame or a native zipline
source. -/
inductive RunSource where
  | frame (df : DataFrame)
  | native (src : SourceObj)
deriving DecidableEq

/-- Stateful transform instance: `StatefulTransform(class, *args,
**kwargs)` with the post-hoc `namestring` tag assigned by
`_create_simulator`. -/
structure StatefulTransform where
  cls : Nat
  args : List Value
  kwargs : List (String × Value)
  namestring : String
deriving DecidableEq

/-- Modelled from the spec: the external environment resolver
(`create_trading_environment`, zipline.utils.factory, not in src/)
derives an opaque span object from a start and end timestamp. -/
structure TradingEnvironment where
  start : Int
  stop : Int
deriving DecidableEq

/-- Modelled from the spec: `create_trading_environment(start=..., end=...)`
resolves the simulation span covering the source's first to last
timestamp. -/
def create_trading_environment (s e : Int) : TradingEnvironment :=
  ⟨s, e⟩

/-- Fixed execution-cost model `FixedSlippage()`: zero-argument
constructible, opaque to this core. -/
inductive FixedSlippage where
  | mk
deriving DecidableEq

/-- Runnable simulation object assembled by `_create_simulator`:
`SimulatedTrading([source], transforms, self, environment,
FixedSlippage())`. -/
structure SimulatedTrading where
  sources : List SourceObj
  transforms : List StatefulTransform
  algo : AlgoState
  environment : TradingEnvironment
  slippage : FixedSlippage
deriving DecidableEq

/-- Daily stats report `pd.DataFrame(daily_perfs, index=daily_dts)`: the
row index (converted `period_close` instants) and the rows (the
`daily_perf` values, one per daily snapshot). -/
structure DailyStats where
  index : List Int
  rows : List Value
deriving DecidableEq

/-- TradingAlgorithm `__init__(sids, *args, **kwargs)` with the default
(no-op) `initialize` hook: sets `sids`, `done = False`, `order = None`,
`frame_count = 0`, `portfolio = None`, `registered_transforms = {}`; the
`logger` attribute is not created. -/
def TradingAlgorithm_init (sids : List Nat) : AlgoState :=
  { sids := sids
    done := false
    order := Value.prim PrimValue.null
    frame_count := 0
    portfolio := Value.prim PrimValue.null
    registered_transforms := []
    logger := none }

/-- Method `add_transform(transform_class, tag, *args, **kwargs)`:
`self.registered_transforms[tag] = {'class': ..., 'args': ...,
'kwargs': ...}`. -/
def add_transform (a : AlgoState) (transform_class : Nat) (tag : String)
    (args : List Value) (kwargs : List (String × Value)) : AlgoState :=
  { a with registered_transforms :=
      dictInsert a.registered_transforms tag ⟨transform_class, args, kwargs⟩ }

/-- Method `set_portfolio(portfolio)`: `self.portfolio = portfolio`. -/
def set_portfolio (a : AlgoState) (p : Value) : AlgoState :=
  { a with portfolio := p }

/-- Method `set_order(order_callable)`: `self.order = order_callable`. -/
def set_order (a : AlgoState) (o : Value) : AlgoState :=
  { a with order := o }

/-- Method `get_sid_filter()`: `return self.sids`. -/
def get_sid_filter (a : AlgoState) : List Nat :=
  a.sids

/-- Method `set_logger(logger)`: `self.logger = logger` (this assignment
is what creates the attribute). -/
def set_logger (a : AlgoState) (l : Value) : AlgoState :=
  { a with logger := some l }

/-- Method `set_slippage_override(slippage_callable)`: the body is
`pass`, so the state is returned unchanged and the Python return value is
`None`. -/
def set_slippage_override (a : AlgoState) (_slippage_callable : Value) :
    AlgoState × Value :=
  (a, Value.prim PrimValue.null)

/-- Attribute read `self.logger`: raises `AttributeError` when the
attribute was never assigned. -/
def getattr_logger (a : AlgoState) : Except PyError Value :=
  match a.logger with
  | none => Except.error PyError.attributeError
  | some v => Except.ok v

/-- Python list indexing `xs[0]`: `IndexError` on an empty list. -/
def indexFirst (l : List Int) : Except PyError Int :=
  match l with
  | [] => Except.error PyError.indexError
  | x :: _ => Except.ok x

/-- Python list indexing `xs[-1]`: `IndexError` on an empty list. -/
def indexLast (l : List Int) : Except PyError Int :=
  match l.getLast? with
  | none => Except.error PyError.indexError
  | some x => Except.ok x

/-- Loop body of `_create_simulator` over
`self.registered_transforms.iteritems()`: wrap each descriptor into a
`StatefulTransform(class, *args, **kwargs)` and set `sf.namestring` to
its registry tag. -/
def materialize_transforms (rt : List (String × TransformDescr)) :
    List StatefulTransform :=
  rt.map (fun e => ⟨e.2.cls, e.2.args, e.2.kwargs, e.1⟩)

/-- Method `_create_simulator(source)`: resolves the environment from
`source.data.index[0]` and `source.data.index[-1]`, materializes the
registered transforms, and assembles
`SimulatedTrading([source], transforms, self, environment,
FixedSlippage())`. -/
def _create_simulator (a : AlgoState) (source : SourceObj) :
    Except PyError SimulatedTrading :=
  match indexFirst source.data.index.vals with
  | Except.error e => Except.error e
  | Except.ok startT =>
    match indexLast source.data.index.vals with
    | Except.error e => Except.error e
    | Except.ok endT =>
      Except.ok
        ⟨[source], materialize_transforms a.registered_transforms, a,
          create_trading_environment startT endT, FixedSlippage.mk⟩

/-- Loop of `_create_daily_stats` over `perfs`: snapshots holding a
`daily_perf` key contribute `perf['daily_perf']` to `daily_perfs`, all
others go to `cum_perfs`, preserving encounter order in each bucket. -/
def partition_perfs : List Perf → List Value × List Perf
  | [] => ([], [])
  | p :: rest =>
    let pr := partition_perfs rest
    match alookup p "daily_perf" with
    | some d => (d :: pr.1, pr.2)
    | none => (pr.1, p :: pr.2)

/-- Conversion `np.datetime64(x, utc=True)` of a field value to a
timezone-aware instant: succeeds exactly on timestamp values. -/
def toUtc : PrimValue → Except PyError Int
  | PrimValue.time t => Except.ok t
  | _ => Except.error PyError.typeError

/-- Expression `np.datetime64(perf['period_close'], utc=True)` where
`perf` ranges over the collected `daily_perfs` values: subscripting a
non-record fails, a missing `period_close` key fails, otherwise the field
is converted to an instant. -/
def period_close_dt (dp : Value) : Except PyError Int :=
  match dp with
  | Value.record fs =>
    match alookup fs "period_close" with
    | some v => toUtc v
    | none => Except.error PyError.keyError
  | Value.prim _ => Except.error PyError.typeError

/-- List comprehension
`[np.datetime64(perf['period_close'], utc=True) for perf in daily_perfs]`:
first failure propagates. -/
def daily_dts_of : List Value → Except PyError (List Int)
  | [] => Except.ok []
  | dp :: rest =>
    match period_close_dt dp with
    | Except.error e => Except.error e
    | Except.ok t =>
      match daily_dts_of rest with
      | Except.error e => Except.error e
      | Except.ok ts => Except.ok (t :: ts)

/-- Method `_create_daily_stats(perfs)`: partition the snapshots, convert
each daily entry's `period_close` to an instant, and build
`pd.DataFrame(daily_perfs, index=daily_dts)` (the cumulative bucket is
computed but unused). -/
def _create_daily_stats (perfs : List Perf) : Except PyError DailyStats :=
  let daily_perfs := (partition_perfs perfs).1
  match daily_dts_of daily_perfs with
  | Except.error e => Except.error e
  | Except.ok daily_dts => Except.ok ⟨daily_dts, daily_perfs⟩

/-- Source-selection prefix of `run`: a DataFrame must pass
`assert isinstance(source.index, pd.tseries.index.DatetimeIndex)` and is
then wrapped via `DataFrameSource(source, sids=self.sids)`; a native
source passes through unchanged. -/
def adapt_source (a : AlgoState) (source : RunSource) :
    Except PyError SourceObj :=
  match source with
  | RunSource.frame df =>
    if df.index.kind = IndexKind.datetime then
      Except.ok (DataFrameSource df a.sids)
    else
      Except.error PyError.assertionError
  | RunSource.native s => Except.ok s

/-- Method `run(source)`: adapt the source, build the simulator, exhaust
its snapshot stream (`perfs = list(simulated_trading)`, supplied here by
the external `engine` oracle), and reduce to the daily stats report. -/
def run (a : AlgoState) (source : RunSource)
    (engine : SimulatedTrading → List Perf) : Except PyError DailyStats :=
  match adapt_source a source with
  | Except.error e => Except.error e
  | Except.ok src =>
    match _create_simulator a src with
    | Except.error e => Except.error e
    | Except.ok simulated_trading =>
      _create_daily_stats (engine simulated_trading)

/-- Strict increase of a timestamp sequence: the ordering property the
spec requires of tabular row indexes (`run` itself never checks it). -/
def strictIncr : List Int → Bool
  | [] => true
  | [_] => true
  | x :: y :: rest => (decide (x < y)) && strictIncr (y :: rest)

/-- Underlying DataFrame of a `run` input (for a native source, its
`.data` attribute), whose index is the source's temporal extent. -/
def source_data : RunSource → DataFrame
  | RunSource.frame df => df
  | RunSource.native s => s.data

lemma partition_perfs_eq_of_no_daily : ∀ {perfs : List Perf},
    (∀ p ∈ perfs, alookup p "daily_perf" = none) →
    partition_perfs perfs = ([], perfs)
  | [], _ => rfl
  | p :: rest, h => by
    have hrest :=
      partition_perfs_eq_of_no_daily (fun q hq => h q (List.mem_cons_of_mem _ hq))
    simp [partition_perfs, hrest, h p (List.mem_cons_self _ _)]

/-- Daily bucket of a snapshot list: the snapshots carrying a
`daily_perf` key, in encounter order (the spec's daily partition). -/
def dailyBucket (perfs : List Perf) : List Perf :=
  perfs.filter (fun p => (alookup p "daily_perf").isSome)

/-- Index timestamp the reducer extracts for a snapshot: the
`period_close` field of its `daily_perf` nested record, when present and
convertible. -/
def nestedTime (p : Perf) : Option Int :=
  match alookup p "daily_perf" with
  | some d =>
    match period_close_dt d with
    | Except.ok t => some t
    | Except.error _ => none
  | none => none

/-- Timestamp fields carried by a snapshot: its top-level `period_close`
(when a timestamp) and, for a daily snapshot, the `period_close` of its
`daily_perf` record. -/
def timesOf (p : Perf) : List Int :=
  (match alookup p "period_close" with
   | some (Value.prim (PrimValue.time t)) => [t]
   | _ => []) ++
  (match nestedTime p with
   | some t => [t]
   | none => [])

/-- Chronological emission order of a snapshot list: every timestamp
field of an earlier snapshot is ≤ every timestamp field of a later one. -/
abbrev Chronological (perfs : List Perf) : Prop :=
  List.Pairwise (fun p q => ∀ t ∈ timesOf p, ∀ u ∈ timesOf q, t ≤ u) perfs

lemma partition_fst_forall2 : ∀ perfs : List Perf,
    List.Forall₂ (fun p d => alookup p "daily_perf" = some d)
      (dailyBucket perfs) (partition_perfs perfs).1
  | [] => List.Forall₂.nil
  | p :: rest => by
    have ih := partition_fst_forall2 rest
    cases hd : alookup p "daily_perf" with
    | some d =>
      have h1 : dailyBucket (p :: rest) = p :: dailyBucket rest := by
        simp [dailyBucket, List.filter_cons, hd]
      have h2 : (partition_perfs (p :: rest)).1 =
          d :: (partition_perfs rest).1 := by
        simp [partition_perfs, hd]
      rw [h1, h2]
      exact List.Forall₂.cons hd ih
    | none =>
      have h1 : dailyBucket (p :: rest) = dailyBucket rest := by
        simp [dailyBucket, List.filter_cons, hd]
      have h2 : (partition_perfs (p :: rest)).1 =
          (partition_perfs rest).1 := by
        simp [partition_perfs, hd]
      rw [h1, h2]
      exact ih

lemma daily_dts_of_forall2 : ∀ (ds : List Value) (ts : List Int),
    daily_dts_of ds = Except.ok ts →
    List.Forall₂ (fun d t => period_close_dt d = Except.ok t) ds ts
  | [], ts, h => by
    simp only [daily_dts_of] at h
    injection h with h2
    subst h2
    exact List.Forall₂.nil
  | d :: rest, ts, h => by
    simp only [daily_dts_of] at h
    cases hpc : period_close_dt d with
    | error e => rw [hpc] at h; cases h
    | ok t =>
      rw [hpc] at h
      cases hrest : daily_dts_of rest with
      | error e => rw [hrest] at h; cases h
      | ok ts0 =>
        rw [hrest] at h
        injection h with h2
        subst h2
        exact List.Forall₂.cons hpc (daily_dts_of_forall2 rest ts0 hrest)

lemma dts_eq_filterMap_nestedTime : ∀ (perfs : List Perf) (ts : List Int),
    daily_dts_of (partition_perfs perfs).1 = Except.ok ts →
    ts = perfs.filterMap nestedTime
  | [], ts, h => by
    simp only [partition_perfs, daily_dts_of] at h
    injection h with h2
    simp [← h2]
  | p :: rest, ts, h => by
    cases hd : alookup p "daily_perf" with
    | none =>
      have h2 : (partition_perfs (p :: rest)).1 =
          (partition_perfs rest).1 := by
        simp [partition_perfs, hd]
      rw [h2] at h
      have hnt : nestedTime p = none := by simp [nestedTime, hd]
      rw [List.filterMap_cons, hnt]
      exact dts_eq_filterMap_nestedTime rest ts h
    | some d =>
      have h2 : (partition_perfs (p :: rest)).1 =
          d :: (partition_perfs rest).1 := by
        simp [partition_perfs, hd]
      rw [h2] at h
      simp only [daily_dts_of] at h
      cases hpc : period_close_dt d with
      | error e => rw [hpc] at h; cases h
      | ok t =>
        rw [hpc] at h
        cases hrest : daily_dts_of (partition_perfs rest).1 with
        | error e => rw [hrest] at h; cases h
        | ok ts0 =>
          rw [hrest] at h
          injection h with h3
          subst h3
          have hnt : nestedTime p = some t := by simp [nestedTime, hd, hpc]
          rw [List.filterMap_cons, hnt]
          simp [dts_eq_filterMap_nestedTime rest ts0 hrest]

lemma forall2_trans {α β γ : Type} {R : α → β → Prop} {S : β → γ → Prop}
    {T : α → γ → Prop} (hc : ∀ a b c, R a b → S b c → T a c) :
    ∀ {l1 : List α} {l2 : List β} {l3 : List γ},
    List.Forall₂ R l1 l2 → List.Forall₂ S l2 l3 → List.Forall₂ T l1 l3
  | _, _, _, List.Forall₂.nil, List.Forall₂.nil => List.Forall₂.nil
  | _, _, _, List.Forall₂.cons hab h1, List.Forall₂.cons hbc h2 =>
    List.Forall₂.cons (hc _ _ _ hab hbc) (forall2_trans hc h1 h2)

lemma period_close_dt_ok {d : Value} {t : Int}
    (h : period_close_dt d = Except.ok t) :
    ∃ fs : PerfRecord, d = Value.record fs ∧
      ∃ v : PrimValue, alookup fs "period_close" = some v ∧
        toUtc v = Except.ok t := by
  cases d with
  | prim v => simp [period_close_dt] at h
  | record fs =>
    cases hv : alookup fs "period_close" with
    | none => simp [period_close_dt, hv] at h
    | some v =>
      exact ⟨fs, rfl, v, hv, by simpa [period_close_dt, hv] using h⟩

lemma create_daily_stats_ok {perfs : List Perf} {stats : DailyStats}
    (h : _create_daily_stats perfs = Except.ok stats) :
    stats.rows = (partition_perfs perfs).1 ∧
    daily_dts_of (partition_perfs perfs).1 = Except.ok stats.index := by
  simp only [_create_daily_stats] at h
  cases hdts : daily_dts_of (partition_perfs perfs).1 with
  | error e => rw [hdts] at h; cases h
  | ok dts =>
    rw [hdts] at h
    injection h with h2
    subst h2
    exact ⟨rfl, rfl⟩

lemma nestedTime_mem_timesOf {p : Perf} {t : Int}
    (h : nestedTime p = some t) : t ∈ timesOf p := by
  simp [timesOf, h]

/-- C2 counterexample: for a daily snapshot whose top-level
`period_close` is the instant 7 while its `daily_perf` record carries
`period_close` 5, the reducer indexes the row at 5 — the nested record's
field — not at the snapshot's top-level `period_close`, so the claim as
stated is false. -/
theorem c2_counterexample :
    _create_daily_stats
        [[("daily_perf", Value.record [("period_close", PrimValue.time 5)]),
          ("period_close", Value.prim (PrimValue.time 7))]] =
      Except.ok
        ⟨[5], [Value.record [("period_close", PrimValue.time 5)]]⟩ ∧
    alookup
        [("daily_perf", Value.record [("period_close", PrimValue.time 5)]),
         ("period_close", Value.prim (PrimValue.time 7))] "period_close" =
      some (Value.prim (PrimValue.time 7)) ∧
    (5 : Int) ≠ 7 :=
  ⟨rfl, rfl, by decide⟩

/-- C2 (amended): for each daily-bucket snapshot in encounter order, the
report row's columns are the contents of that snapshot's `daily_perf`
field, and the row's index entry is the `period_close` field of the
`daily_perf` nested record (not the snapshot's top-level `period_close`)
converted to a timezone-aware instant. -/
theorem c2_daily_stats_shape (perfs : List Perf) (stats : DailyStats)
    (h : _create_daily_stats perfs = Except.ok stats) :
    List.Forall₂ (fun p d => alookup p "daily_perf" = some d)
      (dailyBucket perfs) stats.rows ∧
    List.Forall₂
      (fun p t => ∃ fs : PerfRecord,
        alookup p "daily_perf" = some (Value.record fs) ∧
        ∃ v : PrimValue, alookup fs "period_close" = some v ∧
          toUtc v = Except.ok t)
      (dailyBucket perfs) stats.index := by
  obtain ⟨hrows, hdts⟩ := create_daily_stats_ok h
  constructor
  · rw [hrows]
    exact partition_fst_forall2 perfs
  · refine forall2_trans ?_ (partition_fst_forall2 perfs)
      (daily_dts_of_forall2 _ _ hdts)
    intro p d t hpd hdt
    obtain ⟨fs, rfl, v, hv, htu⟩ := period_close_dt_ok hdt
    exact ⟨fs, hpd, v, hv, htu⟩

/-- Witness for the amended C2 at a concrete one-snapshot list. -/
theorem c2_daily_stats_shape_witness :
    List.Forall₂ (fun p d => alookup p "daily_perf" = some d)
      (dailyBucket [[("daily_perf",
        Value.record [("period_close", PrimValue.time 4)])]])
      (DailyStats.mk [4]
        [Value.record [("period_close", PrimValue.time 4)]]).rows ∧
    List.Forall₂
      (fun p t => ∃ fs : PerfRecord,
        alookup p "daily_perf" = some (Value.record fs) ∧
        ∃ v : PrimValue, alookup fs "period_close" = some v ∧
          toUtc v = Except.ok t)
      (dailyBucket [[("daily_perf",
        Value.record [("period_close", PrimValue.time 4)])]])
      (DailyStats.mk [4]
        [Value.record [("period_close", PrimValue.time 4)]]).index :=
  c2_daily_stats_shape _ _ rfl

/-- C3: for every snapshot list in chronological emission order, a
report returned by the reducer has exactly as many rows (and index
entries) as there are snapshots carrying a `daily_perf` field, and its
index is monotonically non-decreasing. -/
theorem c3_row_count_and_monotone_index (perfs : List Perf)
    (stats : DailyStats) (hchrono : Chronological perfs)
    (h : _create_daily_stats perfs = Except.ok stats) :
    stats.rows.length = (dailyBucket perfs).length ∧
    stats.index.length = (dailyBucket perfs).length ∧
    List.Chain' (fun t u => t ≤ u) stats.index := by
  obtain ⟨hrows, hdts⟩ := create_daily_stats_ok h
  have hlen1 : (dailyBucket perfs).length = (partition_perfs perfs).1.length :=
    (partition_fst_forall2 perfs).length_eq
  have hlen2 : (partition_perfs perfs).1.length = stats.index.length :=
    (daily_dts_of_forall2 _ _ hdts).length_eq
  refine ⟨by rw [hrows, hlen1], by rw [hlen2.symm, hlen1], ?_⟩
  have hidx : stats.index = perfs.filterMap nestedTime :=
    dts_eq_filterMap_nestedTime perfs stats.index hdts
  rw [hidx]
  refine List.Pairwise.chain' (List.Pairwise.filterMap nestedTime ?_ hchrono)
  intro p q hpq t ht u hu
  exact hpq t (nestedTime_mem_timesOf ht) u (nestedTime_mem_timesOf hu)

/-- Witness for C3 at a concrete chronological snapshot list (daily,
cumulative, daily). -/
theorem c3_row_count_and_monotone_index_witness :
    Chronological
      [[("daily_perf", Value.record [("period_close", PrimValue.time 1)]),
        ("period_close", Value.prim (PrimValue.time 1))],
       [("period_close", Value.prim (PrimValue.time 2))],
       [("daily_perf", Value.record [("period_close", PrimValue.time 3)]),
        ("period_close", Value.prim (PrimValue.time 3))]] ∧
    ((DailyStats.mk [1, 3]
        [Value.record [("period_close", PrimValue.time 1)],
         Value.record [("period_close", PrimValue.time 3)]]).rows.length =
      (dailyBucket
        [[("daily_perf", Value.record [("period_close", PrimValue.time 1)]),
          ("period_close", Value.prim (PrimValue.time 1))],
         [("period_close", Value.prim (PrimValue.time 2))],
         [("daily_perf", Value.record [("period_close", PrimValue.time 3)]),
          ("period_close", Value.prim (PrimValue.time 3))]]).length ∧
     (DailyStats.mk [1, 3]
        [Value.record [("period_close", PrimValue.time 1)],
         Value.record [("period_close", PrimValue.time 3)]]).index.length =
      (dailyBucket
        [[("daily_perf", Value.record [("period_close", PrimValue.time 1)]),
          ("period_close", Value.prim (PrimValue.time 1))],
         [("period_close", Value.prim (PrimValue.time 2))],
         [("daily_perf", Value.record [("period_close", PrimValue.time 3)]),
          ("period_close", Value.prim (PrimValue.time 3))]]).length ∧
     List.Chain' (fun t u => t ≤ u)
       (DailyStats.mk [1, 3]
         [Value.record [("period_close", PrimValue.time 1)],
          Value.record [("period_close", PrimValue.time 3)]]).index) :=
  ⟨by decide,
    c3_row_count_and_monotone_index _ _ (by decide) rfl⟩

/-- Relation "stateful-transform instance `sf` materializes registry
entry `e`": the instance is constructed from the descriptor's
implementation reference and stored arguments and tagged with its
registry name. -/
def materializes (e : String × TransformDescr)
    (sf : StatefulTransform) : Prop :=
  sf.cls = e.2.cls ∧ sf.args = e.2.args ∧ sf.kwargs = e.2.kwargs ∧
    sf.namestring = e.1

lemma forall2_materialize (rt : List (String × TransformDescr)) :
    List.Forall₂ materializes rt (materialize_transforms rt) := by
  induction rt with
  | nil => exact List.Forall₂.nil
  | cons e rest ih => exact List.Forall₂.cons ⟨rfl, rfl, rfl, rfl⟩ ih

/-- C5: a successful `_create_simulator` call assembles exactly one
simulation object from the one source wrapped in a single-element list,
one stateful-transform instance per registered descriptor (constructed
from the descriptor's implementation reference and stored arguments and
tagged with its registry name), the algorithm instance itself, an
environment resolved from the source's first and last timestamps, and a
freshly constructed FixedSlippage model; `run` on that source drives
exactly that simulation and reduces its snapshots (being a function of
the inputs alone, nothing of a prior run is cached or reused). -/
theorem c5_single_assembly (a : AlgoState) (source : SourceObj)
    (engine : SimulatedTrading → List Perf) (sim : SimulatedTrading)
    (h : _create_simulator a source = Except.ok sim) :
    sim.sources = [source] ∧
    List.Forall₂ materializes a.registered_transforms sim.transforms ∧
    sim.algo = a ∧
    (∃ s e, indexFirst source.data.index.vals = Except.ok s ∧
      indexLast source.data.index.vals = Except.ok e ∧
      sim.environment = create_trading_environment s e) ∧
    sim.slippage = FixedSlippage.mk ∧
    run a (RunSource.native source) engine =
      _create_daily_stats (engine sim) := by
  have hrun : run a (RunSource.native source) engine =
      _create_daily_stats (engine sim) := by
    simp [run, adapt_source, h]
  simp only [_create_simulator] at h
  cases h1 : indexFirst source.data.index.vals with
  | error e => rw [h1] at h; cases h
  | ok startT =>
    rw [h1] at h
    cases h2 : indexLast source.data.index.vals with
    | error e => rw [h2] at h; cases h
    | ok endT =>
      rw [h2] at h
      injection h with h3
      subst h3
      exact ⟨rfl, forall2_materialize _, rfl,
        ⟨startT, endT, rfl, rfl, rfl⟩, rfl, hrun⟩

/-- Witness for C5 at a concrete algorithm with one registered transform
and a three-period source. -/
theorem c5_single_assembly_witness :
    (SimulatedTrading.mk [⟨⟨⟨IndexKind.datetime, [1, 2, 3]⟩, [1, 2]⟩, [1, 2]⟩]
        [⟨7, [], [], "mavg"⟩]
        (add_transform (TradingAlgorithm_init [1, 2]) 7 "mavg" [] [])
        ⟨1, 3⟩ FixedSlippage.mk).sources =
      [⟨⟨⟨IndexKind.datetime, [1, 2, 3]⟩, [1, 2]⟩, [1, 2]⟩] ∧
    List.Forall₂ materializes
      (add_transform (TradingAlgorithm_init [1, 2]) 7 "mavg" []
        []).registered_transforms
      (SimulatedTrading.mk [⟨⟨⟨IndexKind.datetime, [1, 2, 3]⟩, [1, 2]⟩, [1, 2]⟩]
        [⟨7, [], [], "mavg"⟩]
        (add_transform (TradingAlgorithm_init [1, 2]) 7 "mavg" [] [])
        ⟨1, 3⟩ FixedSlippage.mk).transforms ∧
    (SimulatedTrading.mk [⟨⟨⟨IndexKind.datetime, [1, 2, 3]⟩, [1, 2]⟩, [1, 2]⟩]
        [⟨7, [], [], "mavg"⟩]
        (add_transform (TradingAlgorithm_init [1, 2]) 7 "mavg" [] [])
        ⟨1, 3⟩ FixedSlippage.mk).algo =
      add_transform (TradingAlgorithm_init [1, 2]) 7 "mavg" [] [] ∧
    (∃ s e,
      indexFirst (⟨⟨⟨IndexKind.datetime, [1, 2, 3]⟩, [1, 2]⟩,
        [1, 2]⟩ : SourceObj).data.index.vals = Except.ok s ∧
      indexLast (⟨⟨⟨IndexKind.datetime, [1, 2, 3]⟩, [1, 2]⟩,
        [1, 2]⟩ : SourceObj).data.index.vals = Except.ok e ∧
      (SimulatedTrading.mk [⟨⟨⟨IndexKind.datetime, [1, 2, 3]⟩, [1, 2]⟩, [1, 2]⟩]
        [⟨7, [], [], "mavg"⟩]
        (add_transform (TradingAlgorithm_init [1, 2]) 7 "mavg" [] [])
        ⟨1, 3⟩ FixedSlippage.mk).environment =
        create_trading_environment s e) ∧
    (SimulatedTrading.mk [⟨⟨⟨IndexKind.datetime, [1, 2, 3]⟩, [1, 2]⟩, [1, 2]⟩]
        [⟨7, [], [], "mavg"⟩]
        (add_transform (TradingAlgorithm_init [1, 2]) 7 "mavg" [] [])
        ⟨1, 3⟩ FixedSlippage.mk).slippage = FixedSlippage.mk ∧
    run (add_transform (TradingAlgorithm_init [1, 2]) 7 "mavg" [] [])
      (RunSource.native ⟨⟨⟨IndexKind.datetime, [1, 2, 3]⟩, [1, 2]⟩, [1, 2]⟩)
      (fun _ => []) =
    _create_daily_stats ((fun _ => [])
      (SimulatedTrading.mk [⟨⟨⟨IndexKind.datetime, [1, 2, 3]⟩, [1, 2]⟩, [1, 2]⟩]
        [⟨7, [], [], "mavg"⟩]
        (add_transform (TradingAlgorithm_init [1, 2]) 7 "mavg" [] [])
        ⟨1, 3⟩ FixedSlippage.mk)) :=
  c5_single_assembly _ _ _ _ rfl

/-- C6: for every algorithm state and every callable argument, calling
`set_slippage_override` leaves every field of the algorithm state
unchanged and returns None (the callable is stored nowhere). -/
theorem c6_set_slippage_override_inert (a : AlgoState) (c : Value) :
    set_slippage_override a c = (a, Value.prim PrimValue.null) :=
  rfl

/-- C10: after construction with the default hook, the algorithm state
has no `logger` attribute (reading it raises `AttributeError`), while
`order` and `portfolio` exist and read as None; the `logger` attribute
comes into existence exactly when `set_logger` assigns it, and no other
setter or `add_transform` creates or changes it. -/
theorem c10_logger_absent_until_set_logger (sids : List Nat) :
    getattr_logger (TradingAlgorithm_init sids) =
      Except.error PyError.attributeError ∧
    (TradingAlgorithm_init sids).order = Value.prim PrimValue.null ∧
    (TradingAlgorithm_init sids).portfolio = Value.prim PrimValue.null ∧
    (∀ (a : AlgoState) (l : Value),
      getattr_logger (set_logger a l) = Except.ok l) ∧
    (∀ (a : AlgoState) (cls : Nat) (tag : String) (args : List Value)
        (kwargs : List (String × Value)),
      (add_transform a cls tag args kwargs).logger = a.logger) ∧
    (∀ (a : AlgoState) (p : Value), (set_portfolio a p).logger = a.logger) ∧
    (∀ (a : AlgoState) (o : Value), (set_order a o).logger = a.logger) ∧
    (∀ (a : AlgoState) (c : Value),
      ((set_slippage_override a c).1).logger = a.logger) :=
  ⟨rfl, rfl, rfl, fun _ _ => rfl, fun _ _ _ _ _ => rfl, fun _ _ => rfl,
    fun _ _ => rfl, fun _ _ => rfl⟩

/-- C9: when no snapshot carries a `daily_perf` field, the reducer
returns an empty report (no rows, empty index) rather than an error. -/
theorem c9_empty_daily_bucket (perfs : List Perf)
    (h : ∀ p ∈ perfs, alookup p "daily_perf" = none) :
    _create_daily_stats perfs = Except.ok ⟨[], []⟩ := by
  simp [_create_daily_stats, partition_perfs_eq_of_no_daily h, daily_dts_of]

/-- Witness for C9 at a concrete cumulative-only snapshot list. -/
theorem c9_empty_daily_bucket_witness :
    (∀ p ∈ [[("period_close", Value.prim (PrimValue.time 3))]],
      alookup p "daily_perf" = none) ∧
    _create_daily_stats [[("period_close", Value.prim (PrimValue.time 3))]] =
      Except.ok ⟨[], []⟩ :=
  ⟨by decide, c9_empty_daily_bucket _ (by decide)⟩

/-- C1 counterexample: a DataFrame whose index is a DatetimeIndex but is
NOT strictly increasing (timestamps 2 then 1) passes the assertion in
`run`; the simulation is constructed and, with an engine yielding no
snapshots, `run` returns an (empty) report instead of failing with a
type/shape error. -/
theorem c1_counterexample :
    strictIncr [2, 1] = false ∧
    run (TradingAlgorithm_init [1])
        (RunSource.frame ⟨⟨IndexKind.datetime, [2, 1]⟩, [1]⟩)
        (fun _ => []) = Except.ok ⟨[], []⟩ := by
  constructor
  · decide
  · rfl

/-- C1 (amended): `run` fails fast with the assertion (type/shape) error,
for all engines alike (so before any simulation is constructed or any
snapshot produced), exactly when the tabular input's row index is not of
DatetimeIndex kind; the strict-increase ordering of the index is not
checked. -/
theorem c1_nondatetime_index_fails (a : AlgoState) (df : DataFrame)
    (engine : SimulatedTrading → List Perf)
    (h : df.index.kind ≠ IndexKind.datetime) :
    run a (RunSource.frame df) engine = Except.error PyError.assertionError := by
  simp [run, adapt_source, h]

/-- Witness for the amended C1 at a concrete non-datetime-indexed
DataFrame. -/
theorem c1_nondatetime_index_fails_witness :
    ((⟨⟨IndexKind.object, [1, 2]⟩, [1]⟩ : DataFrame).index.kind ≠
      IndexKind.datetime) ∧
    run (TradingAlgorithm_init [1])
        (RunSource.frame ⟨⟨IndexKind.object, [1, 2]⟩, [1]⟩)
        (fun _ => []) = Except.error PyError.assertionError :=
  ⟨by decide, c1_nondatetime_index_fails _ _ _ (by decide)⟩

/-- C8: a source with an empty temporal extent (no periods) makes `run`
fail with an error — no report is returned — and the outcome is the same
for every engine, i.e. the failure happens during assembly, before any
snapshot is driven. -/
theorem c8_empty_source_fails (a : AlgoState) (s : RunSource)
    (engine : SimulatedTrading → List Perf)
    (h : (source_data s).index.vals = []) :
    (∃ e, run a s engine = Except.error e) ∧
    (∀ engine2 : SimulatedTrading → List Perf,
      run a s engine2 = run a s engine) := by
  cases s with
  | native src =>
    simp only [source_data] at h
    refine ⟨⟨PyError.indexError, ?_⟩, fun e2 => ?_⟩ <;>
      simp [run, adapt_source, _create_simulator, indexFirst, h]
  | frame df =>
    simp only [source_data] at h
    by_cases hk : df.index.kind = IndexKind.datetime
    · refine ⟨⟨PyError.indexError, ?_⟩, fun e2 => ?_⟩ <;>
        simp [run, adapt_source, hk, DataFrameSource, _create_simulator,
          indexFirst, h]
    · refine ⟨⟨PyError.assertionError, ?_⟩, fun e2 => ?_⟩ <;>
        simp [run, adapt_source, hk]

/-- Tag list of a registry (the dict's key set, in order). -/
def keys {α : Type} (l : List (String × α)) : List String :=
  l.map Prod.fst

lemma alookup_dictInsert_self {α : Type} :
    ∀ (d : List (String × α)) (k : String) (v : α),
    alookup (dictInsert d k v) k = some v
  | [], k, v => by simp [dictInsert, alookup]
  | (k', w) :: rest, k, v => by
    by_cases h : k' = k
    · simp [dictInsert, h, alookup]
    · simp [dictInsert, h, alookup, alookup_dictInsert_self rest k v]

lemma keys_dictInsert {α : Type} :
    ∀ (d : List (String × α)) (k : String) (v : α),
    keys (dictInsert d k v) = if k ∈ keys d then keys d else keys d ++ [k]
  | [], k, v => by simp [dictInsert, keys]
  | (k', w) :: rest, k, v => by
    by_cases h : k' = k
    · simp [dictInsert, h, keys]
    · have hne : ¬k = k' := fun hc => h hc.symm
      simp only [dictInsert, if_neg h, keys, List.map_cons, List.mem_cons,
        hne, false_or]
      have hrec := keys_dictInsert rest k v
      simp only [keys] at hrec
      rw [hrec]
      by_cases hm : k ∈ List.map Prod.fst rest
      · simp [hm]
      · simp [hm]

lemma nodup_keys_dictInsert {α : Type} (d : List (String × α)) (k : String)
    (v : α) (h : (keys d).Nodup) : (keys (dictInsert d k v)).Nodup := by
  rw [keys_dictInsert]
  by_cases hm : k ∈ keys d
  · simpa [hm] using h
  · simp [hm, List.nodup_append, h, List.disjoint_singleton]

lemma filter_eq_nil_of_not_mem_keys {α : Type} :
    ∀ (d : List (String × α)) (k : String), k ∉ keys d →
    d.filter (fun e => e.1 == k) = []
  | [], _, _ => rfl
  | (k', w) :: rest, k, h => by
    have h1 : ¬k' = k := fun hc => h (by simp [keys, hc])
    have h2 : k ∉ keys rest := fun hc => h (by simp [keys] at hc ⊢; exact Or.inr hc)
    simp [List.filter_cons, h1, filter_eq_nil_of_not_mem_keys rest k h2]

lemma filter_dictInsert {α : Type} :
    ∀ (d : List (String × α)) (k : String) (v : α), (keys d).Nodup →
    (dictInsert d k v).filter (fun e => e.1 == k) = [(k, v)]
  | [], k, v, _ => by simp [dictInsert]
  | (k', w) :: rest, k, v, h => by
    have h' : (k' :: keys rest).Nodup := h
    have hk' : k' ∉ keys rest := (List.nodup_cons.mp h').1
    have hrest : (keys rest).Nodup := (List.nodup_cons.mp h').2
    by_cases hkk : k' = k
    · subst hkk
      simp [dictInsert, List.filter_cons,
        filter_eq_nil_of_not_mem_keys rest k' hk']
    · simp [dictInsert, hkk, List.filter_cons,
        filter_dictInsert rest k v hrest]

lemma filter_materialize_transforms :
    ∀ (rt : List (String × TransformDescr)) (tag : String),
    (materialize_transforms rt).filter (fun sf => sf.namestring == tag) =
      materialize_transforms (rt.filter (fun e => e.1 == tag))
  | [], _ => rfl
  | e :: rest, tag => by
    have ih := filter_materialize_transforms rest tag
    simp only [materialize_transforms, List.map_cons, List.filter_cons] at ih ⊢
    by_cases h : e.1 == tag
    · simp [h, ih]
    · simp [h, ih]

/-- C4: registering a transform under an already-registered tag
overwrites the prior descriptor: after `add_transform(A, tag)` then
`add_transform(B, tag)` the registry maps `tag` to B's descriptor, a
subsequent assembly materializes only B's descriptor under `tag`, and tag
uniqueness of the registry is preserved at each step. -/
theorem c4_add_transform_overwrites (a : AlgoState) (A B : Nat)
    (tag : String) (aargs bargs : List Value)
    (akw bkw : List (String × Value))
    (hnodup : (keys a.registered_transforms).Nodup) :
    alookup (add_transform (add_transform a A tag aargs akw) B tag bargs
        bkw).registered_transforms tag = some ⟨B, bargs, bkw⟩ ∧
    (materialize_transforms
        (add_transform (add_transform a A tag aargs akw) B tag bargs
          bkw).registered_transforms).filter
        (fun sf => sf.namestring == tag) = [⟨B, bargs, bkw, tag⟩] ∧
    (keys (add_transform a A tag aargs akw).registered_transforms).Nodup ∧
    (keys (add_transform (add_transform a A tag aargs akw) B tag bargs
        bkw).registered_transforms).Nodup := by
  have h1 : (keys (dictInsert a.registered_transforms tag
      (⟨A, aargs, akw⟩ : TransformDescr))).Nodup :=
    nodup_keys_dictInsert _ _ _ hnodup
  refine ⟨?_, ?_, ?_, ?_⟩
  · exact alookup_dictInsert_self _ _ _
  · rw [show (add_transform (add_transform a A tag aargs akw) B tag bargs
        bkw).registered_transforms =
        dictInsert (dictInsert a.registered_transforms tag ⟨A, aargs, akw⟩)
          tag ⟨B, bargs, bkw⟩ from rfl,
      filter_materialize_transforms, filter_dictInsert _ _ _ h1]
    rfl
  · exact h1
  · exact nodup_keys_dictInsert _ _ _ h1

/-- Witness for C4 at a concrete state with an empty registry and tag
`"x"`. -/
theorem c4_add_transform_overwrites_witness :
    (keys (TradingAlgorithm_init [1]).registered_transforms).Nodup ∧
    (alookup (add_transform (add_transform (TradingAlgorithm_init [1]) 1 "x"
        [] []) 2 "x" [] []).registered_transforms "x" =
      some ⟨2, [], []⟩ ∧
    (materialize_transforms
        (add_transform (add_transform (TradingAlgorithm_init [1]) 1 "x" [] [])
          2 "x" [] []).registered_transforms).filter
        (fun sf => sf.namestring == "x") = [⟨2, [], [], "x"⟩] ∧
    (keys (add_transform (TradingAlgorithm_init [1]) 1 "x" []
        []).registered_transforms).Nodup ∧
    (keys (add_transform (add_transform (TradingAlgorithm_init [1]) 1 "x" []
        []) 2 "x" [] []).registered_transforms).Nodup) :=
  ⟨by decide, c4_add_transform_overwrites _ 1 2 "x" [] [] [] [] (by decide)⟩

/-- Public mutation steps on an algorithm instance: the four storing
setters, `add_transform`, the inert `set_slippage_override`, and `run`
(which, as embedded, assigns no attribute of the instance — the source's
`run` only reads `self`; its state contribution is the identity). -/
inductive AlgoStep : AlgoState → AlgoState → Prop where
  | add_transform_step (a : AlgoState) (cls : Nat) (tag : String)
      (args : List Value) (kwargs : List (String × Value)) :
      AlgoStep a (add_transform a cls tag args kwargs)
  | set_portfolio_step (a : AlgoState) (p : Value) :
      AlgoStep a (set_portfolio a p)
  | set_order_step (a : AlgoState) (o : Value) :
      AlgoStep a (set_order a o)
  | set_logger_step (a : AlgoState) (l : Value) :
      AlgoStep a (set_logger a l)
  | set_slippage_override_step (a : AlgoState) (c : Value) :
      AlgoStep a (set_slippage_override a c).1
  | run_step (a : AlgoState) (source : RunSource)
      (engine : SimulatedTrading → List Perf) : AlgoStep a a

/-- C7: the tracked-instrument set is read-only after construction: every
state reachable from a freshly constructed instance through the public
operations still carries the sids supplied at construction, and
`get_sid_filter` returns exactly that set. -/
theorem c7_sids_readonly (sids : List Nat) (a : AlgoState)
    (h : Relation.ReflTransGen AlgoStep (TradingAlgorithm_init sids) a) :
    a.sids = sids ∧ get_sid_filter a = sids := by
  have hs : a.sids = sids := by
    induction h with
    | refl => rfl
    | tail hab step ih =>
      cases step <;>
        simp_all [add_transform, set_portfolio, set_order, set_logger,
          set_slippage_override]
  exact ⟨hs, hs⟩

/-- Witness for C7 at a concrete one-step reachable state. -/
theorem c7_sids_readonly_witness :
    (set_logger (TradingAlgorithm_init [1, 2])
        (Value.prim (PrimValue.fn 0))).sids = [1, 2] ∧
    get_sid_filter (set_logger (TradingAlgorithm_init [1, 2])
        (Value.prim (PrimValue.fn 0))) = [1, 2] :=
  c7_sids_readonly _ _
    (Relation.ReflTransGen.single (AlgoStep.set_logger_step _ _))

/-- Witness for C8 at a concrete native source with an empty index. -/
theorem c8_empty_source_fails_witness :
    (source_data
        (RunSource.native ⟨⟨⟨IndexKind.datetime, []⟩, []⟩, [1]⟩)).index.vals =
      ([] : List Int) ∧
    ((∃ e, run (TradingAlgorithm_init [1])
        (RunSource.native ⟨⟨⟨IndexKind.datetime, []⟩, []⟩, [1]⟩)
        (fun _ => []) = Except.error e) ∧
     (∀ engine2 : SimulatedTrading → List Perf,
        run (TradingAlgorithm_init [1])
          (RunSource.native ⟨⟨⟨IndexKind.datetime, []⟩, []⟩, [1]⟩) engine2 =
        run (TradingAlgorithm_init [1])
          (RunSource.native ⟨⟨⟨IndexKind.datetime, []⟩, []⟩, [1]⟩)
          (fun _ => []))) :=
  ⟨rfl, c8_empty_source_fails _ _ _ rfl⟩

end Zipline
